import Mathlib

/-!
Shallow embedding of the PDF → summary → translation → speech pipeline
(`app.py`) and verification of its specified behaviour.

The four helper functions and the `index` request handler are translated
directly from the source.  External collaborators (the PDF library, the
Gemini endpoint, the Sarvam translation and text-to-speech endpoints) are
modelled as oracles supplied in a `World` record; file-system side effects
are made explicit in an `Effects` record returned by the handler.
-/

/-- `UPLOAD_FOLDER = 'uploads'` from the source configuration. -/
def UPLOAD_FOLDER : String := "uploads"

/-- `AUDIO_FOLDER = 'static/audio'` from the source configuration. -/
def AUDIO_FOLDER : String := "static/audio"

/-- Python's `str.startswith`: prefix test on the character
sequences. -/
def str_starts_with (s pre : String) : Bool := pre.toList.isPrefixOf s.toList

/-- Python's `str.endswith`: suffix test on the character sequences. -/
def str_ends_with (s suf : String) : Bool := suf.toList.isSuffixOf s.toList

/-- POSIX `os.path.join` on two components, as used by the source (an
absolute second component replaces the first; otherwise a single slash
separates them unless the first already ends in one or is empty). -/
def os_path_join (a b : String) : String :=
  if str_starts_with b "/" then b
  else if a == "" || str_ends_with a "/" then a ++ b
  else a ++ "/" ++ b

/-- A PDF file as the extractor sees it: either unreadable (opening or
parsing raises) or a sequence of pages, each yielding the string that
`page.extract_text()` returns (the empty string standing for a page with
no extractable text, i.e. a falsy `page_text`). -/
inductive PdfFile where
  | unreadable
  | pages (ps : List String)
deriving DecidableEq

/-- `extract_text_from_pdf` from the source: concatenates each truthy
page text followed by a newline; on any exception returns `None`. -/
def extract_text_from_pdf : PdfFile → Option String
  | .unreadable => none
  | .pages ps =>
      some (ps.foldl (fun text page_text =>
        if page_text != "" then text ++ page_text ++ "\n" else text) "")

/-- Outcome of one `model.generate_content` call: a successful response
text, a `ResourceExhausted` (rate-limit) exception, or any other
exception. -/
inductive GeminiOutcome where
  | success (s : String)
  | rateLimited
  | otherError
deriving DecidableEq

/-- Observable events of the summarizer: an API attempt (0-based index)
or a `time.sleep` of the given number of seconds. -/
inductive SummEvent where
  | attempt (i : Nat)
  | sleep (d : Nat)
deriving DecidableEq

/-- The retry loop of `summarize_with_gemini`: `for i in range(retries)`,
returning the response text on success, returning `None` on a
non-rate-limit exception, and on `ResourceExhausted` sleeping `delay`
seconds and doubling `delay` before the next iteration.  Returns the
result together with the trace of attempts and sleeps. -/
def summarizeLoop (oracle : Nat → GeminiOutcome) :
    Nat → Nat → Nat → Option String × List SummEvent
  | 0, _, _ => (none, [])
  | fuel + 1, i, delay =>
      match oracle i with
      | .success s => (some s, [.attempt i])
      | .otherError => (none, [.attempt i])
      | .rateLimited =>
          let r := summarizeLoop oracle fuel (i + 1) (delay * 2)
          (r.1, .attempt i :: .sleep delay :: r.2)

/-- `summarize_with_gemini` from the source: `retries = 5`, `delay = 2`. -/
def summarize_with_gemini (oracle : Nat → GeminiOutcome) :
    Option String × List SummEvent :=
  summarizeLoop oracle 5 0 2

/-- The trace produced by `k` consecutive rate-limited attempts starting
at attempt index `i` with current delay `d`. -/
def rlEvents : Nat → Nat → Nat → List SummEvent
  | 0, _, _ => []
  | k + 1, i, d => .attempt i :: .sleep d :: rlEvents k (i + 1) (d * 2)

/-- Whether a trace event is an API attempt. -/
def isAttempt : SummEvent → Bool
  | .attempt _ => true
  | .sleep _ => false

/-- The delay of a sleep event, if any. -/
def sleepD : SummEvent → Option Nat
  | .sleep d => some d
  | .attempt _ => none

/-- Number of API attempts recorded in a trace. -/
def countAttempts (t : List SummEvent) : Nat := (t.filter isAttempt).length

/-- The sleeps that occur strictly before the last attempt of a trace,
i.e. the delays between successive attempts (trailing sleeps after the
final attempt are not between attempts). -/
def interAttemptDelays (t : List SummEvent) : List Nat :=
  ((t.reverse.dropWhile (fun e => !isAttempt e)).reverse).filterMap sleepD

/-- The Sarvam translation response: `translated_text` is `some _` when
the attribute exists, and `str_repr` is Python's `str(response)`. -/
structure TransResponse where
  translated_text : Option String
  str_repr : String
deriving DecidableEq

/-- `translate_with_sarvam` from the source: a raised exception
(`resp = none`) yields `None`; otherwise the `translated_text` attribute
if present, else `str(response)`. -/
def translate_with_sarvam (resp : Option TransResponse) : Option String :=
  match resp with
  | none => none
  | some r =>
      match r.translated_text with
      | some t => some t
      | none => some r.str_repr

/-- State of CPython's non-strict `binascii.a2b_base64` scanner. -/
structure B64State where
  quadPos : Nat
  leftchar : Nat
  pads : Nat
  out : List Nat
deriving DecidableEq

/-- The base64 alphabet value of a character, `none` for characters
outside the alphabet (which non-strict decoding discards). -/
def b64val (c : Char) : Option Nat :=
  if 'A' ≤ c ∧ c ≤ 'Z' then some (c.toNat - 65)
  else if 'a' ≤ c ∧ c ≤ 'z' then some (c.toNat - 97 + 26)
  else if '0' ≤ c ∧ c ≤ '9' then some (c.toNat - 48 + 52)
  else if c = '+' then some 62
  else if c = '/' then some 63
  else none

/-- One data character of CPython's non-strict base64 scanner:
accumulate six bits, emitting a byte at quad positions 1, 2 and 3, and
clear the pending pad count. -/
def b64data (st : B64State) (d : Nat) : B64State :=
  match st.quadPos with
  | 0 => { quadPos := 1, leftchar := d, pads := 0, out := st.out }
  | 1 => { quadPos := 2, leftchar := d % 16, pads := 0,
           out := st.out ++ [st.leftchar * 4 + d / 16] }
  | 2 => { quadPos := 3, leftchar := d % 4, pads := 0,
           out := st.out ++ [st.leftchar * 16 + d / 4] }
  | _ + 3 => { quadPos := 0, leftchar := 0, pads := 0,
               out := st.out ++ [st.leftchar * 64 + d] }

/-- CPython's non-strict `binascii.a2b_base64` scan: a `=` seen after at
least two data characters of the current quad counts as padding, and as
soon as padding completes the quad the scan STOPS, returning the bytes
emitted so far (everything after the pad sequence is ignored); a `=`
earlier in a quad and any other non-alphabet character are skipped. -/
def b64run : B64State → List Char → Option (List Nat)
  | st, [] => if st.quadPos = 0 then some st.out else none
  | st, c :: cs =>
      if c = '=' then
        if 2 ≤ st.quadPos then
          if 4 ≤ st.quadPos + st.pads + 1 then some st.out
          else b64run { st with pads := st.pads + 1 } cs
        else b64run st cs
      else
        match b64val c with
        | none => b64run { st with pads := 0 } cs
        | some d => b64run (b64data st d) cs

/-- Python's `base64.b64decode` (non-strict): scan the string, stopping
successfully at the first complete pad sequence, and fail with
`binascii.Error` (here `none`) when input ends with data characters
left over in an incomplete quad. -/
def b64decodePy (s : String) : Option (List Nat) :=
  b64run ⟨0, 0, 0, []⟩ s.toList

/-- The Sarvam text-to-speech response: its `audios` attribute, a list
of base64 strings.  The source guards on
`hasattr(audio_response, 'audios') and audio_response.audios`, so an
empty list covers both an absent and a falsy attribute. -/
structure TtsResponse where
  audios : List String
deriving DecidableEq

/-- `generate_audio_with_sarvam` from the source, returning the value
returned to the caller together with the list of file writes
(path, bytes) it performs.  A raised exception (`resp = none`), a falsy
`audios` attribute, or a `b64decode` error all yield `None` and no
write; otherwise the chunks are joined, decoded as one string, and the
bytes are written to `AUDIO_FOLDER/audio_filename`. -/
def generate_audio_with_sarvam (resp : Option TtsResponse)
    (audio_filename : String) : Option String × List (String × List Nat) :=
  match resp with
  | none => (none, [])
  | some r =>
      match r.audios with
      | [] => (none, [])
      | _ :: _ =>
          match b64decodePy (String.join r.audios) with
          | some decoded_audio =>
              (some audio_filename,
               [(os_path_join AUDIO_FOLDER audio_filename, decoded_audio)])
          | none => (none, [])

/-- The uploaded file object `request.files['pdf_file']`
(a werkzeug `FileStorage`): only its `filename` matters to the handler's
control flow. -/
structure FormFile where
  filename : String
deriving DecidableEq

/-- An HTTP request to `/`: the method, the `pdf_file` entry of
`request.files` when present, and the `language_code` form field when
present. -/
structure Request where
  is_post : Bool
  pdf_file : Option FormFile
  language_code : Option String
deriving DecidableEq

/-- The behaviour of the external collaborators during one request: the
content of the saved PDF as the extractor sees it, the outcome of each
Gemini attempt, and the Sarvam translation and text-to-speech responses
(`none` meaning the call raises). -/
structure World where
  pdf : PdfFile
  gemini : Nat → GeminiOutcome
  translateResp : Option TransResponse
  ttsResp : Option TtsResponse

/-- A response of the handler: a rendered template, a plain error body
with a status code, or the rendered `result.html` page with the
translated summary and audio url. -/
inductive HttpResponse where
  | page (template : String)
  | errorResp (msg : String) (code : Nat)
  | resultPage (summary : String) (audio_url : String)
deriving DecidableEq

/-- HTTP status code of a response (rendered templates are 200). -/
def statusOf : HttpResponse → Nat
  | .page _ => 200
  | .errorResp _ c => c
  | .resultPage _ _ => 200

/-- The side effects of one request: uploads saved (`file.save`),
uploads removed (`os.remove`), texts passed to `summarize_with_gemini`,
(text, language) pairs passed to `translate_with_sarvam`,
(text, language, filename) triples passed to
`generate_audio_with_sarvam`, and (path, bytes) audio-file writes. -/
structure Effects where
  savedUploads : List String
  removedUploads : List String
  summarizeCalls : List String
  translateCalls : List (String × String)
  ttsCalls : List (String × String × String)
  audioWrites : List (String × List Nat)
deriving DecidableEq

/-- The effects of a request that performed no file or API operation. -/
def emptyEffects : Effects := ⟨[], [], [], [], [], []⟩

/-- The `index` route handler from the source, POST branch and the
final `render_template('index.html')` fallthrough, translated branch by
branch.  Python truthiness of the intermediate strings (`if not
document_text`, `if not english_summary`, `if not translated_summary`,
`if audio_file`) is modelled by the explicit `== ""` tests on the
`some` case. -/
def index (req : Request) (w : World) : HttpResponse × Effects :=
  if req.is_post then
    match req.pdf_file with
    | none => (.errorResp "No file part in the request." 400, emptyEffects)
    | some file =>
      if file.filename == "" then
        (.errorResp "No file selected." 400, emptyEffects)
      else
        let language_code := req.language_code.getD "hi"
        if file.filename != "" && str_ends_with file.filename ".pdf" then
          let pdf_path := os_path_join UPLOAD_FOLDER file.filename
          match extract_text_from_pdf w.pdf with
          | none =>
              (.errorResp "Could not extract text from the PDF. It might be empty or scanned." 400,
               ⟨[pdf_path], [], [], [], [], []⟩)
          | some document_text =>
            if document_text == "" then
              (.errorResp "Could not extract text from the PDF. It might be empty or scanned." 400,
               ⟨[pdf_path], [], [], [], [], []⟩)
            else
              match (summarize_with_gemini w.gemini).1 with
              | none =>
                  (.errorResp "Error: Could not generate summary from Gemini. The API may be temporarily unavailable or rate limited." 500,
                   ⟨[pdf_path], [], [document_text], [], [], []⟩)
              | some english_summary =>
                if english_summary == "" then
                  (.errorResp "Error: Could not generate summary from Gemini. The API may be temporarily unavailable or rate limited." 500,
                   ⟨[pdf_path], [], [document_text], [], [], []⟩)
                else
                  match translate_with_sarvam w.translateResp with
                  | none =>
                      (.errorResp "Error: Could not translate summary using Sarvam AI." 500,
                       ⟨[pdf_path], [], [document_text],
                        [(english_summary, language_code)], [], []⟩)
                  | some translated_summary =>
                    if translated_summary == "" then
                      (.errorResp "Error: Could not translate summary using Sarvam AI." 500,
                       ⟨[pdf_path], [], [document_text],
                        [(english_summary, language_code)], [], []⟩)
                    else
                      let audio_filename := "summary_" ++ language_code ++ ".mp3"
                      let ga := generate_audio_with_sarvam w.ttsResp audio_filename
                      let eff : Effects :=
                        ⟨[pdf_path], [pdf_path], [document_text],
                         [(english_summary, language_code)],
                         [(translated_summary, language_code, audio_filename)],
                         ga.2⟩
                      match ga.1 with
                      | some audio_file =>
                          if audio_file == "" then
                            (.errorResp "Could not generate audio file. Check your server logs for errors from the Sarvam AI API." 500,
                             eff)
                          else (.resultPage translated_summary audio_file, eff)
                      | none =>
                          (.errorResp "Could not generate audio file. Check your server logs for errors from the Sarvam AI API." 500,
                           eff)
        else (.page "index.html", emptyEffects)
  else (.page "index.html", emptyEffects)

/-- The effective language code of a request:
`request.form.get('language_code', 'hi')`. -/
def langOf (req : Request) : String := req.language_code.getD "hi"

/-- The filenames a handler run passed to the speech synthesizer. -/
def ttsFilenamesOf (r : HttpResponse × Effects) : List String :=
  r.2.ttsCalls.map (fun c => c.2.2)

/-- The paths a handler run wrote audio bytes to. -/
def audioWritePathsOf (r : HttpResponse × Effects) : List String :=
  r.2.audioWrites.map Prod.fst

/-- A string made of whitespace characters only. -/
def whitespaceOnly (s : String) : Bool := s.toList.all Char.isWhitespace

/-- Join of a non-empty list of strings. -/
lemma string_foldl_append (l : List String) (acc : String) :
    l.foldl (· ++ ·) acc = acc ++ String.join l := by
  induction l generalizing acc with
  | nil => simp [String.join]
  | cons a l ih =>
      show l.foldl (· ++ ·) (acc ++ a) = acc ++ String.join (a :: l)
      have hj : String.join (a :: l) = a ++ String.join l := by
        show l.foldl (· ++ ·) ("" ++ a) = a ++ String.join l
        rw [String.empty_append, ih]
      rw [ih, hj, String.append_assoc]

/-- The spec's description of the extractor output: the pages that yield
text, in document order, each followed by a newline, concatenated;
textless pages contribute nothing. -/
def extractSpecText (ps : List String) : String :=
  String.join ((ps.filter (fun p => p != "")).map (fun p => p ++ "\n"))

/-- The extractor's fold, run from an arbitrary accumulator. -/
lemma extractFold_acc (ps : List String) (acc : String) :
    ps.foldl (fun text page_text =>
        if page_text != "" then text ++ page_text ++ "\n" else text) acc
      = acc ++ extractSpecText ps := by
  induction ps generalizing acc with
  | nil => simp [extractSpecText, String.join]
  | cons p ps ih =>
      by_cases hp : p = ""
      · subst hp
        simp only [List.foldl, bne_self_eq_false, Bool.false_eq_true,
          if_neg, ite_false]
        rw [ih]
        simp [extractSpecText]
      · have hp' : (p != "") = true := by simp [bne_iff_ne, hp]
        simp only [List.foldl, hp', if_pos]
        rw [ih]
        have hs : extractSpecText (p :: ps) = (p ++ "\n") ++ extractSpecText ps := by
          
          simp only [extractSpecText, List.filter, hp', List.map]
          show (((ps.filter fun p => p != "").map fun p => p ++ "\n").foldl
              (· ++ ·) ("" ++ (p ++ "\n"))) = _
          rw [String.empty_append, string_foldl_append]
        rw [hs]
        simp [String.append_assoc]

/-- C6: for every readable PDF the extractor's output is the
concatenation, in document order, of each text-yielding page's text
followed by a newline, textless pages contributing nothing. -/
theorem c6_extractor_concatenation (ps : List String) :
    extract_text_from_pdf (.pages ps) = some (extractSpecText ps) := by
  simp only [extract_text_from_pdf]
  rw [extractFold_acc ps ""]
  rw [String.empty_append]

/-- C7: when the translation response lacks the `translated_text`
attribute, the translator does not fail: it returns the string rendering
of the raw response. -/
theorem c7_translator_fallback (r : TransResponse)
    (h : r.translated_text = none) :
    translate_with_sarvam (some r) = some r.str_repr := by
  simp [translate_with_sarvam, h]

/-- Witness for `c7_translator_fallback` at a concrete response. -/
theorem c7_witness :
    translate_with_sarvam (some ⟨none, "TranslateResponse-object"⟩)
      = some "TranslateResponse-object" :=
  c7_translator_fallback ⟨none, "TranslateResponse-object"⟩ rfl

/-- C8: for every synthesis response holding a non-empty chunk list, the
bytes written are the base64 decoding of the concatenation of all the
chunks in order; an empty chunk list is a failure with no write.  The
remaining conjuncts show concatenate-then-decode is not chunkwise
decoding: split chunks decode jointly but fail separately, and padded
chunks decode jointly to the first pad-terminated quad only (the scan
stops at the first complete pad sequence) while chunkwise decoding
would yield more bytes. -/
theorem c8_audio_concat_decode (r : TtsResponse) (fn : String) :
    (∀ bytes, r.audios ≠ [] →
        b64decodePy (String.join r.audios) = some bytes →
        generate_audio_with_sarvam (some r) fn
          = (some fn, [(os_path_join AUDIO_FOLDER fn, bytes)]))
      ∧ (r.audios = [] → generate_audio_with_sarvam (some r) fn = (none, []))
      ∧ b64decodePy (String.join ["aGVsb", "G8="]) = some [104, 101, 108, 108, 111]
      ∧ b64decodePy "aGVsb" = none
      ∧ b64decodePy (String.join ["aGVsbG8=", "d29ybGQ="])
          = some [104, 101, 108, 108, 111]
      ∧ b64decodePy "aGVsbG8=" = some [104, 101, 108, 108, 111]
      ∧ b64decodePy "d29ybGQ=" = some [119, 111, 114, 108, 100] := by
  refine ⟨?_, ?_, by decide, by decide, by decide, by decide, by decide⟩
  · intro bytes hne hdec
    obtain ⟨audios⟩ := r
    cases audios with
    | nil => exact absurd rfl hne
    | cons a rest =>
        simp only [generate_audio_with_sarvam]
        rw [hdec]
  · intro he
    obtain ⟨audios⟩ := r
    simp only at he
    subst he
    simp [generate_audio_with_sarvam]

/-- Witness for `c8_audio_concat_decode` on two padded chunks: the join
decodes to the bytes of the first pad-terminated quad sequence, and
exactly those bytes are written. -/
theorem c8_witness :
    generate_audio_with_sarvam (some ⟨["aGVsbG8=", "d29ybGQ="]⟩) "summary_hi.mp3"
      = (some "summary_hi.mp3",
         [(os_path_join AUDIO_FOLDER "summary_hi.mp3",
           [104, 101, 108, 108, 111])]) :=
  (c8_audio_concat_decode ⟨["aGVsbG8=", "d29ybGQ="]⟩ "summary_hi.mp3").1
    [104, 101, 108, 108, 111] (by decide) (by decide)

/-- When every attempt up to the remaining fuel is rate-limited, the
retry loop exhausts its fuel, sleeping after every attempt. -/
lemma summarizeLoop_allRL (oracle : Nat → GeminiOutcome) :
    ∀ (fuel i d : Nat), (∀ j, j < fuel → oracle (i + j) = .rateLimited) →
      summarizeLoop oracle fuel i d = (none, rlEvents fuel i d) := by
  intro fuel
  induction fuel with
  | zero => intro i d _; simp [summarizeLoop, rlEvents]
  | succ n ih =>
      intro i d h
      have h0 : oracle i = .rateLimited := by simpa using h 0 (Nat.succ_pos n)
      have hrest : ∀ j, j < n → oracle (i + 1 + j) = .rateLimited := by
        intro j hj
        have := h (j + 1) (Nat.succ_lt_succ hj)
        rwa [show i + (j + 1) = i + 1 + j by omega] at this
      simp only [summarizeLoop, h0]
      rw [ih (i + 1) (d * 2) hrest]
      simp [rlEvents]

/-- C4: when every attempt is rate-limited, the summarizer makes exactly
5 attempts, the delays between successive attempts are 2, 4, 8, 16, and
the outcome is a permanent failure. -/
theorem c4_rate_limit_retry_schedule (oracle : Nat → GeminiOutcome)
    (h : ∀ i, i < 5 → oracle i = .rateLimited) :
    summarize_with_gemini oracle = (none, rlEvents 5 0 2)
      ∧ countAttempts (summarize_with_gemini oracle).2 = 5
      ∧ interAttemptDelays (summarize_with_gemini oracle).2 = [2, 4, 8, 16] := by
  have hmain : summarize_with_gemini oracle = (none, rlEvents 5 0 2) :=
    summarizeLoop_allRL oracle 5 0 2 (fun j hj => by simpa using h j hj)
  refine ⟨hmain, ?_, ?_⟩ <;> rw [hmain] <;> decide

/-- Witness for `c4_rate_limit_retry_schedule` at an always-rate-limited
oracle. -/
theorem c4_witness :
    summarize_with_gemini (fun _ => .rateLimited) = (none, rlEvents 5 0 2)
      ∧ countAttempts (summarize_with_gemini (fun _ => .rateLimited)).2 = 5
      ∧ interAttemptDelays (summarize_with_gemini (fun _ => .rateLimited)).2
          = [2, 4, 8, 16] :=
  c4_rate_limit_retry_schedule (fun _ => .rateLimited) (fun _ _ => rfl)

/-- A run whose first non-rate-limited outcome is a plain error stops at
that attempt: rate-limited prefix, then the final attempt, no trailing
sleep. -/
lemma summarizeLoop_otherError (oracle : Nat → GeminiOutcome) :
    ∀ (k fuel i d : Nat), k < fuel →
      (∀ j, j < k → oracle (i + j) = .rateLimited) →
      oracle (i + k) = .otherError →
      summarizeLoop oracle fuel i d
        = (none, rlEvents k i d ++ [.attempt (i + k)]) := by
  intro k
  induction k with
  | zero =>
      intro fuel i d hk _ he
      cases fuel with
      | zero => omega
      | succ n =>
          have h0 : oracle i = .otherError := by simpa using he
          simp [summarizeLoop, h0, rlEvents]
  | succ m ih =>
      intro fuel i d hk hrl he
      cases fuel with
      | zero => omega
      | succ n =>
          have h0 : oracle i = .rateLimited := by simpa using hrl 0 (Nat.succ_pos m)
          have hrest : ∀ j, j < m → oracle (i + 1 + j) = .rateLimited := by
            intro j hj
            have := hrl (j + 1) (Nat.succ_lt_succ hj)
            rwa [show i + (j + 1) = i + 1 + j by omega] at this
          have he' : oracle (i + 1 + m) = .otherError := by
            rwa [show i + (m + 1) = i + 1 + m by omega] at he
          simp only [summarizeLoop, h0]
          rw [ih n (i + 1) (d * 2) (by omega) hrest he']
          rw [show i + 1 + m = i + (m + 1) by omega]
          simp [rlEvents]

/-- Attempt count of a pure rate-limited trace. -/
lemma countAttempts_rlEvents : ∀ (k i d : Nat), countAttempts (rlEvents k i d) = k := by
  intro k
  induction k with
  | zero => intro i d; simp [rlEvents, countAttempts]
  | succ m ih =>
      intro i d
      simp [rlEvents, countAttempts, List.filter, isAttempt] at ih ⊢
      exact ih (i + 1) (d * 2)

/-- C5: an attempt failing with a non-rate-limited kind makes the
summarizer return failure immediately after that attempt: the trace is
the rate-limited prefix plus that single attempt, the attempt count is
one more than the failing attempt's index, and no sleep follows the
final attempt. -/
theorem c5_non_rate_limit_aborts (oracle : Nat → GeminiOutcome) (k : Nat)
    (hk : k < 5)
    (hrl : ∀ j, j < k → oracle j = .rateLimited)
    (he : oracle k = .otherError) :
    summarize_with_gemini oracle = (none, rlEvents k 0 2 ++ [.attempt k])
      ∧ countAttempts (summarize_with_gemini oracle).2 = k + 1
      ∧ (summarize_with_gemini oracle).2.getLast? = some (.attempt k) := by
  have hmain : summarize_with_gemini oracle
      = (none, rlEvents k 0 2 ++ [.attempt k]) := by
    have := summarizeLoop_otherError oracle k 5 0 2 hk
      (fun j hj => by simpa using hrl j hj) (by simpa using he)
    simpa [summarize_with_gemini] using this
  refine ⟨hmain, ?_, ?_⟩ <;> rw [hmain]
  · simp [countAttempts, List.filter_append, isAttempt]
    have := countAttempts_rlEvents k 0 2
    simp [countAttempts] at this
    omega
  · simp

/-- Witness for `c5_non_rate_limit_aborts`: a first-attempt plain
error. -/
theorem c5_witness :
    summarize_with_gemini (fun _ => .otherError)
        = (none, rlEvents 0 0 2 ++ [.attempt 0])
      ∧ countAttempts (summarize_with_gemini (fun _ => .otherError)).2 = 0 + 1
      ∧ (summarize_with_gemini (fun _ => .otherError)).2.getLast?
          = some (.attempt 0) :=
  c5_non_rate_limit_aborts (fun _ => .otherError) 0 (by decide)
    (fun j hj => absurd hj (Nat.not_lt_zero j)) rfl

/-- C1 counterexample: a POST carrying a present, non-empty-named,
non-`.pdf` upload gets the re-rendered upload form with status 200, not
a 400 error (no audio write occurs, as the claim also says). -/
theorem c1_counterexample :
    statusOf (index ⟨true, some ⟨"notes.txt"⟩, none⟩
        ⟨.unreadable, fun _ => .otherError, none, none⟩).1 = 200
      ∧ (index ⟨true, some ⟨"notes.txt"⟩, none⟩
          ⟨.unreadable, fun _ => .otherError, none, none⟩).1
          = .page "index.html"
      ∧ (index ⟨true, some ⟨"notes.txt"⟩, none⟩
          ⟨.unreadable, fun _ => .otherError, none, none⟩).2.audioWrites
          = [] := by
  decide

/-- C1 (amended): a POST whose upload is present with a non-empty
filename that does not end in `.pdf` re-renders the upload form (status
200) and performs no file operation, in particular it writes nothing to
the audio directory. -/
theorem c1_non_pdf_rerenders_form (file : FormFile) (lc : Option String)
    (w : World) (hn : file.filename ≠ "")
    (hp : ¬ str_ends_with file.filename ".pdf") :
    index ⟨true, some file, lc⟩ w = (.page "index.html", emptyEffects) := by
  simp [index, hn, hp]

/-- Witness for `c1_non_pdf_rerenders_form` at a concrete `.txt`
upload. -/
theorem c1_witness :
    index ⟨true, some ⟨"notes.txt"⟩, none⟩
        ⟨.unreadable, fun _ => .otherError, none, none⟩
      = (.page "index.html", emptyEffects) :=
  c1_non_pdf_rerenders_form ⟨"notes.txt"⟩ none
    ⟨.unreadable, fun _ => .otherError, none, none⟩ (by decide) (by decide)

/-- Python truthiness of the extraction result seen by the handler. -/
def extractTruthy (w : World) : Bool :=
  match extract_text_from_pdf w.pdf with
  | none => false
  | some t => t != ""

/-- Python truthiness of the summarization result seen by the handler. -/
def summaryTruthy (w : World) : Bool :=
  match (summarize_with_gemini w.gemini).1 with
  | none => false
  | some s => s != ""

/-- Python truthiness of the translation result seen by the handler. -/
def translateTruthy (w : World) : Bool :=
  match translate_with_sarvam w.translateResp with
  | none => false
  | some t => t != ""

/-- Every write of the synthesizer targets the joined audio path. -/
lemma generate_audio_write_path (resp : Option TtsResponse) (fn : String) :
    ∀ pw ∈ (generate_audio_with_sarvam resp fn).2,
      pw.1 = os_path_join AUDIO_FOLDER fn := by
  cases resp with
  | none => simp [generate_audio_with_sarvam]
  | some r =>
      obtain ⟨audios⟩ := r
      cases audios with
      | nil => simp [generate_audio_with_sarvam]
      | cons a rest =>
          simp only [generate_audio_with_sarvam]
          cases b64decodePy (String.join (a :: rest)) <;> simp

/-- Effects of the handler on an accepted upload: the upload is saved at
the joined upload path; it is removed exactly when extraction,
summarization and translation all produced truthy values; every
text-to-speech call uses the language-derived filename; and every audio
write targets the language-derived path. -/
lemma index_accepted_effects (file : FormFile) (lc : Option String)
    (w : World) (hn : file.filename ≠ "")
    (hp : str_ends_with file.filename ".pdf" = true) :
    (index ⟨true, some file, lc⟩ w).2.savedUploads
        = [os_path_join UPLOAD_FOLDER file.filename]
      ∧ (index ⟨true, some file, lc⟩ w).2.removedUploads
        = (if extractTruthy w && summaryTruthy w && translateTruthy w
            then [os_path_join UPLOAD_FOLDER file.filename] else [])
      ∧ (∀ c ∈ (index ⟨true, some file, lc⟩ w).2.ttsCalls,
          c.2.2 = "summary_" ++ lc.getD "hi" ++ ".mp3")
      ∧ (∀ pw ∈ (index ⟨true, some file, lc⟩ w).2.audioWrites,
          pw.1 = os_path_join AUDIO_FOLDER ("summary_" ++ lc.getD "hi" ++ ".mp3")) := by
  cases hE : extract_text_from_pdf w.pdf with
  | none => simp [index, hn, hp, hE, extractTruthy]
  | some t =>
      by_cases ht : t = ""
      · subst ht
        simp [index, hn, hp, hE, extractTruthy]
      · cases hS : (summarize_with_gemini w.gemini).1 with
        | none => simp [index, hn, hp, hE, hS, extractTruthy, summaryTruthy, ht]
        | some s =>
            by_cases hs : s = ""
            · subst hs
              simp [index, hn, hp, hE, hS, extractTruthy, summaryTruthy, ht]
            · cases hT : translate_with_sarvam w.translateResp with
              | none =>
                  simp [index, hn, hp, hE, hS, hT, extractTruthy,
                    summaryTruthy, translateTruthy, ht, hs]
              | some tr =>
                  by_cases htr : tr = ""
                  · subst htr
                    simp [index, hn, hp, hE, hS, hT, extractTruthy,
                      summaryTruthy, translateTruthy, ht, hs]
                  · have hwr := generate_audio_write_path w.ttsResp
                      ("summary_" ++ lc.getD "hi" ++ ".mp3")
                    cases hG : (generate_audio_with_sarvam w.ttsResp
                        ("summary_" ++ lc.getD "hi" ++ ".mp3")).1 with
                    | none =>
                        simp [index, hn, hp, hE, hS, hT, hG, extractTruthy,
                          summaryTruthy, translateTruthy, ht, hs, htr]
                        exact fun a b hm => hwr (a, b) hm
                    | some af =>
                        by_cases haf : af = ""
                        · subst haf
                          simp [index, hn, hp, hE, hS, hT, hG, extractTruthy,
                            summaryTruthy, translateTruthy, ht, hs, htr]
                          exact fun a b hm => hwr (a, b) hm
                        · simp [index, hn, hp, hE, hS, hT, hG, extractTruthy,
                            summaryTruthy, translateTruthy, ht, hs, htr, haf]
                          exact fun a b hm => hwr (a, b) hm

/-- C2 counterexample: a PDF whose only page extracts to a single space
yields the whitespace-only text of one space and a newline, which the
pipeline passes to the summarizer and completes with status 200 instead
of failing with 400; moreover the extractor itself returns the empty
concatenation as a successful (`some`) value. -/
theorem c2_counterexample :
    extract_text_from_pdf (.pages [" "]) = some " \n"
      ∧ whitespaceOnly " \n" = true
      ∧ (index ⟨true, some ⟨"doc.pdf"⟩, some "hi"⟩
          ⟨.pages [" "], fun _ => .success "S", some ⟨some "T", "r"⟩,
           some ⟨["aGVsbG8="]⟩⟩).2.summarizeCalls = [" \n"]
      ∧ statusOf (index ⟨true, some ⟨"doc.pdf"⟩, some "hi"⟩
          ⟨.pages [" "], fun _ => .success "S", some ⟨some "T", "r"⟩,
           some ⟨["aGVsbG8="]⟩⟩).1 = 200
      ∧ extract_text_from_pdf (.pages [""]) = some "" := by
  decide

/-- C2 (amended): when extraction yields the empty string (or raises),
the handler returns the 400 extraction error and never calls the
summarizer; whitespace-only but non-empty text is not caught. -/
theorem c2_empty_extraction_rejected (file : FormFile) (lc : Option String)
    (w : World) (hn : file.filename ≠ "")
    (hp : str_ends_with file.filename ".pdf" = true)
    (he : extract_text_from_pdf w.pdf = none
          ∨ extract_text_from_pdf w.pdf = some "") :
    (index ⟨true, some file, lc⟩ w).1
        = .errorResp "Could not extract text from the PDF. It might be empty or scanned." 400
      ∧ (index ⟨true, some file, lc⟩ w).2.summarizeCalls = [] := by
  rcases he with he | he <;> simp [index, hn, hp, he]

/-- Witness for `c2_empty_extraction_rejected`: a PDF with no pages. -/
theorem c2_witness :
    (index ⟨true, some ⟨"doc.pdf"⟩, none⟩
        ⟨.pages [], fun _ => .otherError, none, none⟩).1
        = .errorResp "Could not extract text from the PDF. It might be empty or scanned." 400
      ∧ (index ⟨true, some ⟨"doc.pdf"⟩, none⟩
          ⟨.pages [], fun _ => .otherError, none, none⟩).2.summarizeCalls
          = [] :=
  c2_empty_extraction_rejected ⟨"doc.pdf"⟩ none
    ⟨.pages [], fun _ => .otherError, none, none⟩ (by decide) (by decide)
    (Or.inr (by decide))

/-- C3 counterexample: on a summarization failure the handler returns
500 with the upload saved but never removed. -/
theorem c3_counterexample :
    (index ⟨true, some ⟨"doc.pdf"⟩, some "hi"⟩
        ⟨.pages ["hello"], fun _ => .otherError, none, none⟩).1
        = .errorResp "Error: Could not generate summary from Gemini. The API may be temporarily unavailable or rate limited." 500
      ∧ (index ⟨true, some ⟨"doc.pdf"⟩, some "hi"⟩
          ⟨.pages ["hello"], fun _ => .otherError, none, none⟩).2.savedUploads
          = ["uploads/doc.pdf"]
      ∧ (index ⟨true, some ⟨"doc.pdf"⟩, some "hi"⟩
          ⟨.pages ["hello"], fun _ => .otherError, none, none⟩).2.removedUploads
          = [] := by
  decide

/-- C3 (amended): for every accepted upload, the saved PDF is removed
exactly when extraction, summarization and translation all succeeded
(so it is removed on synthesis failure, but persists on extraction,
summarization or translation failure). -/
theorem c3_cleanup_only_after_translation (file : FormFile)
    (lc : Option String) (w : World) (hn : file.filename ≠ "")
    (hp : str_ends_with file.filename ".pdf" = true) :
    (index ⟨true, some file, lc⟩ w).2.removedUploads
      = (if extractTruthy w && summaryTruthy w && translateTruthy w
          then [os_path_join UPLOAD_FOLDER file.filename] else []) :=
  (index_accepted_effects file lc w hn hp).2.1

/-- Witness for `c3_cleanup_only_after_translation` at a fully
successful pipeline. -/
theorem c3_witness :
    (index ⟨true, some ⟨"doc.pdf"⟩, some "hi"⟩
        ⟨.pages ["hello"], fun _ => .success "S", some ⟨some "T", "r"⟩,
         some ⟨["aGVsbG8="]⟩⟩).2.removedUploads
      = (if extractTruthy ⟨.pages ["hello"], fun _ => .success "S",
            some ⟨some "T", "r"⟩, some ⟨["aGVsbG8="]⟩⟩
          && summaryTruthy ⟨.pages ["hello"], fun _ => .success "S",
            some ⟨some "T", "r"⟩, some ⟨["aGVsbG8="]⟩⟩
          && translateTruthy ⟨.pages ["hello"], fun _ => .success "S",
            some ⟨some "T", "r"⟩, some ⟨["aGVsbG8="]⟩⟩
          then [os_path_join UPLOAD_FOLDER "doc.pdf"] else []) :=
  c3_cleanup_only_after_translation ⟨"doc.pdf"⟩ (some "hi")
    ⟨.pages ["hello"], fun _ => .success "S", some ⟨some "T", "r"⟩,
     some ⟨["aGVsbG8="]⟩⟩ (by decide) (by decide)

/-- On any request, every text-to-speech call of the handler carries the
filename derived from the request's effective language code. -/
lemma index_ttsCalls_filename (req : Request) (w : World) :
    ∀ c ∈ (index req w).2.ttsCalls,
      c.2.2 = "summary_" ++ langOf req ++ ".mp3" := by
  obtain ⟨post, pf, lcode⟩ := req
  cases post with
  | false => simp [index, emptyEffects]
  | true =>
      cases pf with
      | none => simp [index, emptyEffects]
      | some file =>
          by_cases hn : file.filename = ""
          · simp [index, hn, emptyEffects]
          · by_cases hp : str_ends_with file.filename ".pdf" = true
            · intro c hc
              have h := (index_accepted_effects file lcode w hn hp).2.2.1 c hc
              simpa [langOf] using h
            · simp [index, hn, hp, emptyEffects]

/-- On any request, every audio write of the handler targets the path
derived from the request's effective language code. -/
lemma index_audioWrites_path (req : Request) (w : World) :
    ∀ pw ∈ (index req w).2.audioWrites,
      pw.1 = os_path_join AUDIO_FOLDER ("summary_" ++ langOf req ++ ".mp3") := by
  obtain ⟨post, pf, lcode⟩ := req
  cases post with
  | false => simp [index, emptyEffects]
  | true =>
      cases pf with
      | none => simp [index, emptyEffects]
      | some file =>
          by_cases hn : file.filename = ""
          · simp [index, hn, emptyEffects]
          · by_cases hp : str_ends_with file.filename ".pdf" = true
            · intro pw hpw
              have h := (index_accepted_effects file lcode w hn hp).2.2.2 pw hpw
              simpa [langOf] using h
            · simp [index, hn, hp, emptyEffects]

/-- C9: the audio artifact filename and target path are functions of the
language code alone: two requests with the same effective language code
can only use one filename and one write path, whatever their uploads or
worlds. -/
theorem c9_audio_name_depends_only_on_language (req₁ req₂ : Request)
    (w₁ w₂ : World) (f₁ f₂ p₁ p₂ : String)
    (hl : langOf req₁ = langOf req₂) :
    (f₁ ∈ ttsFilenamesOf (index req₁ w₁) →
      f₂ ∈ ttsFilenamesOf (index req₂ w₂) → f₁ = f₂)
      ∧ (p₁ ∈ audioWritePathsOf (index req₁ w₁) →
        p₂ ∈ audioWritePathsOf (index req₂ w₂) → p₁ = p₂) := by
  constructor
  · intro h₁ h₂
    simp only [ttsFilenamesOf, List.mem_map] at h₁ h₂
    obtain ⟨c₁, hc₁, hf₁⟩ := h₁
    obtain ⟨c₂, hc₂, hf₂⟩ := h₂
    have e₁ := index_ttsCalls_filename req₁ w₁ c₁ hc₁
    have e₂ := index_ttsCalls_filename req₂ w₂ c₂ hc₂
    rw [← hf₁, ← hf₂, e₁, e₂, hl]
  · intro h₁ h₂
    simp only [audioWritePathsOf, List.mem_map] at h₁ h₂
    obtain ⟨c₁, hc₁, hf₁⟩ := h₁
    obtain ⟨c₂, hc₂, hf₂⟩ := h₂
    have e₁ := index_audioWrites_path req₁ w₁ c₁ hc₁
    have e₂ := index_audioWrites_path req₂ w₂ c₂ hc₂
    rw [← hf₁, ← hf₂, e₁, e₂, hl]

/-- Witness for `c9_audio_name_depends_only_on_language`: two requests
with different uploads and worlds, one with an explicit `hi` code and
one defaulting to it, both reaching synthesis. -/
theorem c9_witness :
    "summary_hi.mp3" ∈ ttsFilenamesOf (index ⟨true, some ⟨"a.pdf"⟩, some "hi"⟩
        ⟨.pages ["hello"], fun _ => .success "S", some ⟨some "T", "r"⟩,
         some ⟨["aGVsbG8="]⟩⟩)
      ∧ "summary_hi.mp3" ∈ ttsFilenamesOf (index ⟨true, some ⟨"b.pdf"⟩, none⟩
          ⟨.pages ["other"], fun _ => .success "Z", some ⟨none, "raw"⟩,
           some ⟨["d29ybGQ="]⟩⟩)
      ∧ "summary_hi.mp3" = "summary_hi.mp3" :=
  ⟨by decide, by decide,
    (c9_audio_name_depends_only_on_language
      ⟨true, some ⟨"a.pdf"⟩, some "hi"⟩ ⟨true, some ⟨"b.pdf"⟩, none⟩
      ⟨.pages ["hello"], fun _ => .success "S", some ⟨some "T", "r"⟩,
       some ⟨["aGVsbG8="]⟩⟩
      ⟨.pages ["other"], fun _ => .success "Z", some ⟨none, "raw"⟩,
       some ⟨["d29ybGQ="]⟩⟩
      "summary_hi.mp3" "summary_hi.mp3" "" "" rfl).1 (by decide) (by decide)⟩

/-- C10: an accepted upload is saved at the upload directory joined with
the client-supplied filename, unmodified; hence two accepted uploads
with the same filename are saved at the same path. -/
theorem c10_saved_path_is_joined_client_filename (file₁ file₂ : FormFile)
    (lc₁ lc₂ : Option String) (w₁ w₂ : World)
    (hn₁ : file₁.filename ≠ "")
    (hp₁ : str_ends_with file₁.filename ".pdf" = true)
    (hn₂ : file₂.filename ≠ "")
    (hp₂ : str_ends_with file₂.filename ".pdf" = true) :
    (index ⟨true, some file₁, lc₁⟩ w₁).2.savedUploads
        = [os_path_join UPLOAD_FOLDER file₁.filename]
      ∧ (file₁.filename = file₂.filename →
          (index ⟨true, some file₁, lc₁⟩ w₁).2.savedUploads
            = (index ⟨true, some file₂, lc₂⟩ w₂).2.savedUploads) := by
  refine ⟨(index_accepted_effects file₁ lc₁ w₁ hn₁ hp₁).1, ?_⟩
  intro hf
  rw [(index_accepted_effects file₁ lc₁ w₁ hn₁ hp₁).1,
    (index_accepted_effects file₂ lc₂ w₂ hn₂ hp₂).1, hf]

/-- Witness for `c10_saved_path_is_joined_client_filename`: two uploads
named `doc.pdf` in different requests are saved at the same path. -/
theorem c10_witness :
    (index ⟨true, some ⟨"doc.pdf"⟩, some "ta"⟩
        ⟨.unreadable, fun _ => .otherError, none, none⟩).2.savedUploads
        = [os_path_join UPLOAD_FOLDER "doc.pdf"]
      ∧ (index ⟨true, some ⟨"doc.pdf"⟩, some "ta"⟩
          ⟨.unreadable, fun _ => .otherError, none, none⟩).2.savedUploads
          = (index ⟨true, some ⟨"doc.pdf"⟩, some "hi"⟩
            ⟨.pages ["hello"], fun _ => .success "S", some ⟨some "T", "r"⟩,
             some ⟨["aGVsbG8="]⟩⟩).2.savedUploads :=
  ⟨(c10_saved_path_is_joined_client_filename ⟨"doc.pdf"⟩ ⟨"doc.pdf"⟩
      (some "ta") (some "hi") ⟨.unreadable, fun _ => .otherError, none, none⟩
      ⟨.pages ["hello"], fun _ => .success "S", some ⟨some "T", "r"⟩,
       some ⟨["aGVsbG8="]⟩⟩ (by decide) (by decide) (by decide) (by decide)).1,
    (c10_saved_path_is_joined_client_filename ⟨"doc.pdf"⟩ ⟨"doc.pdf"⟩
      (some "ta") (some "hi") ⟨.unreadable, fun _ => .otherError, none, none⟩
      ⟨.pages ["hello"], fun _ => .success "S", some ⟨some "T", "r"⟩,
       some ⟨["aGVsbG8="]⟩⟩ (by decide) (by decide) (by decide) (by decide)).2 rfl⟩
